import Mathlib

/-!
Verification of the rhizo-client message layer (`rhizo/messages.py`).

The Python class `MessageClient` is embedded shallowly: the mutable
outgoing-message list becomes an explicit queue value threaded through the
functions, wall-clock time (`datetime.datetime.utcnow()`) becomes an explicit
`now : Int` parameter measured in seconds, fallible operations (the websocket
`connect`, dictionary lookups that can raise `KeyError`) become `Except` /
branching on `Option`, and the side effects that cross into external
collaborators (invoking registered handlers, rewriting the config file in
`set_config`) are recorded as data in the result instead of performed.
-/

set_option autoImplicit false

namespace Rhizo

/-- A JSON-compatible wire value, the type of entries in a message's
`parameters` dictionary (spec section 6: structured, JSON-compatible records). -/
inductive Value where
  | str : String → Value
  | num : Int → Value
  | bool : Bool → Value
  | arr : List Value → Value
  | obj : List (String × Value) → Value

/-- An outbound message dictionary as built by `MessageClient.send`
(messages.py lines 33-40): always a `type` and `parameters` entry, with
`folder` and `channel` keys that are present (`some`) or absent (`none`). -/
structure MessageStruct where
  type : String
  parameters : List (String × Value)
  folder : Option String
  channel : Option String

/-- Timestamps (`datetime.datetime.utcnow()`) modelled as seconds. -/
abbrev Timestamp := Int

/-- The `_outgoing_messages` list: (enqueue time, message) pairs, front first. -/
abbrev OutgoingQueue := List (Timestamp × MessageStruct)

/-- Python truthiness of an optional string, as used by `if folder:` /
`if channel:` on values that are either absent (`None`) or strings:
truthy exactly when present and non-empty. -/
def optStrTruthy : Option String → Bool
  | none => false
  | some s => s != ""

/-- `send_message_struct_to_server` (messages.py lines 117-122): stamps the
entry with the current time — the `timestamp` argument is overwritten on
line 118 before it is ever read — and prepends or appends it. -/
def send_message_struct_to_server (now : Timestamp) (q : OutgoingQueue)
    (message_struct : MessageStruct) (prepend : Bool)
    (timestamp : Option Timestamp) : OutgoingQueue :=
  let timestamp := now
  if prepend then
    (timestamp, message_struct) :: q
  else
    q ++ [(timestamp, message_struct)]

/-- `send` (messages.py lines 32-41): builds the message dictionary, adding
the `folder` and `channel` keys only when the arguments are truthy, and
enqueues it. -/
def send (now : Timestamp) (q : OutgoingQueue) (type : String)
    (parameters : List (String × Value)) (channel : Option String)
    (folder : Option String) (prepend : Bool) : OutgoingQueue :=
  let message_struct : MessageStruct :=
    { type := type
      parameters := parameters
      folder := if optStrTruthy folder then folder else none
      channel := if optStrTruthy channel then channel else none }
  send_message_struct_to_server now q message_struct prepend none

/-- The configuration read by `MessageClient` from `self._controller.config`,
with the keys it accesses (messages.py lines 66-78, 127-143): `secure_server`
and `name` may be absent; `old_auth` and `subscribe_children` are the results
of `config.get(key, False)`. -/
structure ControllerConfig where
  server_name : String
  secret_key : String
  secure_server : Option Bool
  old_auth : Bool
  name : Option String
  subscribe_children : Bool
  deriving DecidableEq

/-- The generic key/value view of the config used by `config.get(name, '')`
in `config_message` (messages.py line 150). -/
abbrev ConfigStore := List (String × Value)

/-- `config.get(name, default)`: first binding of the key, or the default. -/
def config_get (config : ConfigStore) (name : String) (default : Value) : Value :=
  (config.lookup name).getD default

/-- The `WebSocketClient` constructed on messages.py line 79: the URL, the
requested sub-protocols and the optional header list. The base64 encoding of
the credentials is an external library detail (spec section 6), so the header
value keeps the credential string itself. -/
structure WebSocketClient where
  url : String
  protocols : List String
  headers : Option (List (String × String))
  deriving DecidableEq

/-- Python's `str.split(sep)` for a single-character separator, on the
character list of the string: always returns at least one (possibly empty)
chunk, splitting at every occurrence of the separator. -/
def py_split_chars (sep : Char) : List Char → List (List Char)
  | [] => [[]]
  | c :: cs =>
    let r := py_split_chars sep cs
    if c = sep then [] :: r
    else
      match r with
      | [] => [[c]]
      | chunk :: chunks => (c :: chunk) :: chunks

/-- Python's `s.split(sep)` for a single-character separator. -/
def py_split (s : String) (sep : Char) : List String :=
  (py_split_chars sep s.toList).map (fun chunk => String.mk chunk)

/-- The host part of `server_name`: `config.server_name.split(':')[0]`
(messages.py line 70). -/
def connect_host_name (config : ControllerConfig) : String :=
  (py_split config.server_name ':').headD ""

/-- The `secure_server` flag computed on messages.py lines 67-71: the
config override when the key is present, otherwise true unless the host is
`localhost` or `127.0.0.1`. -/
def connect_secure_server (config : ControllerConfig) : Bool :=
  match config.secure_server with
  | some secure_server => secure_server
  | none =>
    let host_name := connect_host_name config
    host_name != "localhost" && host_name != "127.0.0.1"

/-- The transport scheme chosen on messages.py line 72. -/
def connect_protocol (config : ControllerConfig) : String :=
  if connect_secure_server config then "wss" else "ws"

/-- `connect_web_socket` (messages.py lines 65-87): builds the client and
attempts `ws.connect()`; the attempt's outcome is passed in as an `Except`
value, and any error yields `none` (no session) instead of propagating. -/
def connect_web_socket (config : ControllerConfig) ( VERSION BUILD : String)
    (connect_attempt : Except String Unit) : Option WebSocketClient :=
  let headers : Option (List (String × String)) :=
    if config.old_auth then
      none
    else
      let user_name := VERSION ++ "." ++ BUILD
      let password := config.secret_key
      some [("Authorization", "Basic " ++ (user_name ++ ":" ++ password))]
  let ws : WebSocketClient :=
    { url := connect_protocol config ++ "://" ++ config.server_name ++ "/api/v1/websocket"
      protocols := ["http-only"]
      headers := headers }
  match connect_attempt with
  | .ok _ => some ws
  | .error _ => none

/-- Modelled from the spec: `util.build_auth_code` lives outside this
repository slice (only `from . import util` is visible); spec section 4.2
describes it as "an auth code derived from the secret key (HMAC-style code,
computed by the authentication collaborator)". Modelled as an abstract
derivation from the secret key. -/
def build_auth_code (secret_key : String) : String :=
  "authCode:" ++ secret_key

/-- The parameters of the legacy `connect` message (messages.py lines 128-133). -/
def init_connect_params (config : ControllerConfig) ( VERSION BUILD : String) :
    List (String × Value) :=
  let params : List (String × Value) :=
    [("authCode", Value.str (build_auth_code config.secret_key)),
     ("version", Value.str (VERSION ++ ":" ++ BUILD))]
  match config.name with
  | some name => params ++ [("name", Value.str name)]
  | none => params

/-- The parameters of the `subscribe` message (messages.py lines 134-141). -/
def init_subscribe_params (config : ControllerConfig) : List (String × Value) :=
  [("subscriptions",
    Value.arr [Value.obj
      [("folder", Value.str "self"),
       ("include_children", Value.bool config.subscribe_children)]])]

/-- `send_init_socket_messages` (messages.py lines 126-144): prepends the
`subscribe` message, then — in legacy-auth mode — prepends the `connect`
message on top of it. -/
def send_init_socket_messages (config : ControllerConfig) ( VERSION BUILD : String)
    (now : Timestamp) (q : OutgoingQueue) : OutgoingQueue :=
  let q := send now q "subscribe" (init_subscribe_params config) none none true
  if config.old_auth then
    send now q "connect" (init_connect_params config VERSION BUILD) none none true
  else
    q

/-- `config_message` (messages.py lines 147-151): a `config` response mapping
each requested name to `config.get(name, '')`. -/
def config_message (config : ConfigStore) (names : List String) : MessageStruct :=
  { type := "config"
    parameters := names.map (fun name => (name, config_get config name (Value.str "")))
    folder := none
    channel := none }

/-- An inbound frame after JSON decoding: a record in which each of the
`type`, `parameters` and `channel` keys may be absent. -/
structure RawMessage where
  type : Option String
  parameters : Option (List (String × Value))
  channel : Option String

/-- The observable outcome of `process_web_socket_message`: the outgoing
queue afterwards, the `(type, parameters)` invocation delivered to each
registered handler (in registration order), and the parameters of a
`set_config` file rewrite when one was requested (the rewrite itself acts on
the external config file collaborator). -/
structure ProcessResult where
  queue : OutgoingQueue
  handler_calls : List (String × List (String × Value))
  set_config_call : Option (List (String × Value))

/-- `process_web_socket_message` (messages.py lines 90-114) on a decoded
frame. Frames without both `type` and `parameters` are ignored. For
`get_config`/`getConfig` the `params['names']` lookup can raise (`KeyError`
when absent, `AttributeError` when not a string on `.split`), modelled as
`Except.error`; otherwise the `config` response — with the request's
`channel` copied onto it when truthy — is appended to the queue. For
`set_config`/`setConfig` the file rewrite is recorded. Any other type is
delivered to every registered handler. -/
def process_web_socket_message (config : ConfigStore) (num_handlers : Nat)
    (now : Timestamp) (q : OutgoingQueue) (message_struct : RawMessage) :
    Except String ProcessResult :=
  match message_struct.type, message_struct.parameters with
  | some type, some params =>
    let channel := message_struct.channel
    if type == "get_config" || type == "getConfig" then
      match params.lookup "names" with
      | some (Value.str names) =>
        let response_message := config_message config (py_split names ',')
        let response_message :=
          if optStrTruthy channel then
            { response_message with channel := channel }
          else
            response_message
        .ok { queue := send_message_struct_to_server now q response_message false none
              handler_calls := []
              set_config_call := none }
      | some _ => .error "AttributeError"
      | none => .error "KeyError"
    else if type == "set_config" || type == "setConfig" then
      .ok { queue := q, handler_calls := [], set_config_call := some params }
    else
      .ok { queue := q
            handler_calls := List.replicate num_handlers (type, params)
            set_config_call := none }
  | _, _ => .ok { queue := q, handler_calls := [], set_config_call := none }

/-- One iteration of the inner drain loop of `web_socket_sender`
(messages.py lines 201-211) while a socket is present: peek the front entry;
if it is younger than five minutes attempt the send (`send_fails` says
whether `self._web_socket.send` raises); on success — and also when the
entry is expired and never sent — pop it; on a raise, the socket is cleared
and the loop breaks before the pop runs. Returns the socket afterwards, the
queue afterwards, and the message transmitted (if any). -/
def web_socket_sender_step (now : Timestamp) (send_fails : Bool)
    (ws : WebSocketClient) (q : OutgoingQueue) :
    Option WebSocketClient × OutgoingQueue × Option MessageStruct :=
  match q with
  | [] => (some ws, [], none)
  | (timestamp, message_struct) :: rest =>
    if timestamp > now - 5 * 60 then
      if send_fails then
        (none, (timestamp, message_struct) :: rest, none)
      else
        (some ws, rest, some message_struct)
    else
      (some ws, rest, none)

/-- A sequence of enqueue operations (`prepend?`, message) applied in order
through `send_message_struct_to_server`. -/
def enqueue_sequence (now : Timestamp) (q : OutgoingQueue)
    (ops : List (Bool × MessageStruct)) : OutgoingQueue :=
  ops.foldl (fun acc op => send_message_struct_to_server now acc op.2 op.1 none) q

/-- A concrete websocket client, used to instantiate the sender-loop theorems. -/
def wsExample : WebSocketClient :=
  { url := "ws://localhost/api/v1/websocket", protocols := ["http-only"], headers := none }

/-- A concrete keepalive message, as enqueued by `ping_web_socket`
(messages.py line 230). -/
def pingExample : MessageStruct :=
  { type := "ping", parameters := [], folder := none, channel := none }

/-- A concrete legacy-auth (`old_auth`) configuration. -/
def legacyConfig : ControllerConfig :=
  { server_name := "localhost:5000", secret_key := "k", secure_server := none,
    old_auth := true, name := none, subscribe_children := false }

/-- Claim C7: if opening the transport raises any error, `connect_web_socket`
returns no session (`none`) instead of propagating the exception. -/
theorem c7_connect_failure_returns_no_session (config : ControllerConfig)
    ( VERSION BUILD e : String) :
    connect_web_socket config VERSION BUILD (.error e) = none := rfl

/-- Claim C10: the optional `timestamp` argument of
`send_message_struct_to_server` is overwritten with the current time before
use, so the enqueued entry is always stamped `now`, whatever the caller
passed. -/
theorem c10_timestamp_argument_ignored (now : Timestamp) (q : OutgoingQueue)
    (m : MessageStruct) (prepend : Bool) (timestamp : Option Timestamp) :
    send_message_struct_to_server now q m prepend timestamp
      = if prepend then (now, m) :: q else q ++ [(now, m)] := rfl

/-- Claim C6: `send` builds a message whose `folder`/`channel` keys are
present only when the arguments are truthy (provided and non-empty) and
always enqueues it; in particular empty-string `channel`/`folder` behave
exactly like omitted ones. -/
theorem c6_send_field_presence (now : Timestamp) (q : OutgoingQueue) (type : String)
    (parameters : List (String × Value)) (channel folder : Option String)
    (prepend : Bool) :
    send now q type parameters channel folder prepend
      = (let m : MessageStruct :=
          { type := type
            parameters := parameters
            folder := if optStrTruthy folder then folder else none
            channel := if optStrTruthy channel then channel else none }
        if prepend then (now, m) :: q else q ++ [(now, m)])
    ∧ send now q type parameters (some "") (some "") prepend
      = send now q type parameters none none prepend :=
  ⟨rfl, rfl⟩

/-- Claim C2 (as stated, refuted): on a transmit error the front message is
NOT removed from the queue — the pop on messages.py line 207 runs only after
a successful send, so after the failing step the queue still holds the
message. -/
theorem c2_counterexample :
    (web_socket_sender_step 1000 true wsExample [(900, pingExample)]).2.1
      = [(900, pingExample)]
    ∧ [(900, pingExample)] ≠ ([] : OutgoingQueue) :=
  ⟨rfl, by simp⟩

/-- Claim C2 (amended): on a transmit error on a non-expired front message,
the Sender invalidates the session and leaves the queue unchanged — the
in-flight message stays at the front and will be re-attempted after the
reconnect. -/
theorem c2_transmit_error_keeps_message (now ts : Int) (ws : WebSocketClient)
    (m : MessageStruct) (rest : OutgoingQueue) (h : ts > now - 5 * 60) :
    web_socket_sender_step now true ws ((ts, m) :: rest)
      = (none, (ts, m) :: rest, none) := by
  have hc : ts > now - 5 * 60 := h
  simp only [web_socket_sender_step, if_pos hc]
  simp

/-- Witness for C2 (amended) at a concrete state. -/
theorem c2_transmit_error_keeps_message_witness :
    web_socket_sender_step 1000 true wsExample [(900, pingExample)]
      = (none, [(900, pingExample)], none) :=
  c2_transmit_error_keeps_message 1000 900 wsExample pingExample [] (by decide)

/-- Claim C3: when the Sender inspects the front entry while connected, an
entry older than the five-minute window is popped without being transmitted,
and an entry within the window is transmitted (and popped) when the send
raises no error. -/
theorem c3_expiry_window (now ts : Int) (send_fails : Bool)
    (ws : WebSocketClient) (m : MessageStruct) (rest : OutgoingQueue) :
    (now - ts > 5 * 60 →
      web_socket_sender_step now send_fails ws ((ts, m) :: rest)
        = (some ws, rest, none))
    ∧ (now - ts < 5 * 60 → send_fails = false →
      web_socket_sender_step now send_fails ws ((ts, m) :: rest)
        = (some ws, rest, some m)) := by
  constructor
  · intro h
    have hc : ¬ ts > now - 5 * 60 := by omega
    simp only [web_socket_sender_step, if_neg hc]
  · intro h hf
    have hc : ts > now - 5 * 60 := by omega
    subst hf
    simp only [web_socket_sender_step, if_pos hc]
    simp

/-- Witness for C3: an expired entry is discarded unsent, a fresh one is sent. -/
theorem c3_expiry_window_witness :
    web_socket_sender_step 1000 false wsExample [(0, pingExample)]
      = (some wsExample, [], none)
    ∧ web_socket_sender_step 1000 false wsExample [(900, pingExample)]
      = (some wsExample, [], some pingExample) :=
  ⟨(c3_expiry_window 1000 0 false wsExample pingExample []).1 (by decide),
   (c3_expiry_window 1000 900 false wsExample pingExample []).2 (by decide) rfl⟩

/-- Claim C9: an inbound frame missing `type` or missing `parameters` is
silently ignored: no handler is invoked, nothing is enqueued, the queue is
unchanged. -/
theorem c9_missing_type_or_parameters_ignored (config : ConfigStore)
    (num_handlers : Nat) (now : Timestamp) (q : OutgoingQueue) (msg : RawMessage)
    (h : msg.type = none ∨ msg.parameters = none) :
    process_web_socket_message config num_handlers now q msg
      = .ok { queue := q, handler_calls := [], set_config_call := none } := by
  obtain ⟨t, p, c⟩ := msg
  rcases h with h | h
  · simp only at h
    subst h
    rfl
  · simp only at h
    subst h
    cases t <;> rfl

/-- Witness for C9 at a concrete frame lacking `type`. -/
theorem c9_missing_type_or_parameters_ignored_witness :
    process_web_socket_message [] 2 100 []
        { type := none, parameters := some [], channel := none }
      = .ok { queue := [], handler_calls := [], set_config_call := none } :=
  c9_missing_type_or_parameters_ignored [] 2 100 [] _ (Or.inl rfl)

/-- Claim C1 (as stated, refuted): in legacy-auth mode the handshake is NOT
transmitted subscribe-then-connect. The `connect` message is prepended after
the `subscribe` message (messages.py line 143), so `connect` sits at the
queue front and is transmitted first. -/
theorem c1_counterexample :
    ((send_init_socket_messages legacyConfig "1.0" "7" 100 []).map
        (fun e => e.2.type))
      = ["connect", "subscribe"]
    ∧ ¬ ((send_init_socket_messages legacyConfig "1.0" "7" 100 []).map
        (fun e => e.2.type))
      = ["subscribe", "connect"] := by
  constructor
  · rfl
  · decide

/-- Claim C1 (amended): after a successful connection in legacy-auth mode,
both handshake messages are inserted at the front of the queue ahead of
everything queued earlier, and the final transmit order is the `connect`
message first and the `subscribe` message second. -/
theorem c1_legacy_handshake_order (config : ControllerConfig)
    ( VERSION BUILD : String) (now : Timestamp) (q : OutgoingQueue)
    (h : config.old_auth = true) :
    send_init_socket_messages config VERSION BUILD now q
      = (now, { type := "connect"
                parameters := init_connect_params config VERSION BUILD
                folder := none, channel := none })
        :: (now, { type := "subscribe"
                   parameters := init_subscribe_params config
                   folder := none, channel := none })
        :: q := by
  simp [send_init_socket_messages, send, send_message_struct_to_server,
    optStrTruthy, h]

/-- Witness for C1 (amended) at a concrete legacy-auth configuration. -/
theorem c1_legacy_handshake_order_witness :
    send_init_socket_messages legacyConfig "1.0" "7" 100 [(0, pingExample)]
      = (100, { type := "connect"
                parameters := init_connect_params legacyConfig "1.0" "7"
                folder := none, channel := none })
        :: (100, { type := "subscribe"
                   parameters := init_subscribe_params legacyConfig
                   folder := none, channel := none })
        :: [(0, pingExample)] :=
  c1_legacy_handshake_order legacyConfig "1.0" "7" 100 [(0, pingExample)] rfl

/-- Claim C4: applying a sequence of enqueue operations yields the prepended
messages in reverse call order at the front (LIFO among prepends, ahead of
all earlier entries), then the pre-existing queue, then the appended
messages in call order (FIFO among appends); in particular two consecutive
prepends place the second call's message first. -/
theorem c4_enqueue_ordering (now : Timestamp) (q : OutgoingQueue)
    (ops : List (Bool × MessageStruct)) :
    enqueue_sequence now q ops
      = ((ops.filter (fun op => op.1)).reverse.map (fun op => (now, op.2)))
        ++ q
        ++ ((ops.filter (fun op => !op.1)).map (fun op => (now, op.2)))
    ∧ ∀ m1 m2 : MessageStruct,
        enqueue_sequence now q [(true, m1), (true, m2)]
          = (now, m2) :: (now, m1) :: q := by
  constructor
  · induction ops generalizing q with
    | nil => simp [enqueue_sequence]
    | cons op rest ih =>
      obtain ⟨prepend, m⟩ := op
      have step : enqueue_sequence now q ((prepend, m) :: rest)
          = enqueue_sequence now (send_message_struct_to_server now q m prepend none) rest := rfl
      cases prepend
      · rw [step, ih]
        simp [send_message_struct_to_server, List.filter_cons]
      · rw [step, ih]
        simp [send_message_struct_to_server, List.filter_cons]
  · intro m1 m2
    rfl

/-- Claim C5 (as stated, refuted): a `get_config` request that carries an
empty-string `channel` does NOT get the channel echoed onto the response —
`if channel:` on messages.py line 112 treats the empty string as absent. -/
theorem c5_counterexample :
    process_web_socket_message [("a", Value.num 1)] 0 100 []
        { type := some "get_config"
          parameters := some [("names", Value.str "a")]
          channel := some "" }
      = .ok { queue := [(100, { type := "config"
                                parameters := [("a", Value.num 1)]
                                folder := none, channel := none })]
              handler_calls := []
              set_config_call := none }
    ∧ (some "" : Option String) ≠ none :=
  ⟨rfl, by simp⟩

/-- Claim C5 (amended): a config-read request (`get_config`/`getConfig`)
with a comma-separated `names` parameter enqueues a `config` response
mapping each requested name to its Config value (empty string when the key
is missing); the request's `channel` is copied onto the response exactly
when the request carried a non-empty one. -/
theorem c5_get_config_response (config : ConfigStore) (num_handlers : Nat)
    (now : Timestamp) (q : OutgoingQueue) (type names : String)
    (params : List (String × Value)) (channel : Option String)
    (htype : type = "get_config" ∨ type = "getConfig")
    (hnames : params.lookup "names" = some (Value.str names)) :
    process_web_socket_message config num_handlers now q
        { type := some type, parameters := some params, channel := channel }
      = .ok { queue := q ++ [(now,
                { type := "config"
                  parameters := (py_split names ',').map
                    (fun name => (name, config_get config name (Value.str "")))
                  folder := none
                  channel := if optStrTruthy channel then channel else none })]
              handler_calls := []
              set_config_call := none } := by
  have ht : (type == "get_config" || type == "getConfig") = true := by
    rcases htype with h | h <;> simp [h]
  simp only [process_web_socket_message, ht, hnames, config_message,
    send_message_struct_to_server, if_true]
  cases hoc : optStrTruthy channel <;> simp [hoc]

/-- Witness for C5 (amended): the spec's own example, with a channel. -/
theorem c5_get_config_response_witness :
    process_web_socket_message [("a", Value.num 1)] 0 100 []
        { type := some "get_config"
          parameters := some [("names", Value.str "a,b")]
          channel := some "ch" }
      = .ok { queue := [(100, { type := "config"
                                parameters := [("a", Value.num 1), ("b", Value.str "")]
                                folder := none, channel := some "ch" })]
              handler_calls := []
              set_config_call := none } := by
  have h := c5_get_config_response [("a", Value.num 1)] 0 100 [] "get_config" "a,b"
      [("names", Value.str "a,b")] (some "ch") (Or.inl rfl) rfl
  exact h

/-- Claim C8: the transport scheme is `wss` exactly when the config
overrides `secure_server` to true, or there is no override and the host part
of `server_name` is neither `localhost` nor `127.0.0.1`; when the override
key is present its value alone decides. -/
theorem c8_scheme_selection (config : ControllerConfig) :
    (connect_protocol config = "wss" ∨ connect_protocol config = "ws")
    ∧ (connect_protocol config = "wss" ↔
        (config.secure_server = some true
          ∨ (config.secure_server = none
              ∧ connect_host_name config ≠ "localhost"
              ∧ connect_host_name config ≠ "127.0.0.1"))) := by
  constructor
  · unfold connect_protocol
    split
    · exact Or.inl rfl
    · exact Or.inr rfl
  · unfold connect_protocol connect_secure_server
    cases h : config.secure_server with
    | some b => cases b <;> simp [h]
    | none =>
      by_cases h1 : connect_host_name config = "localhost"
      · simp [h, h1]
      · by_cases h2 : connect_host_name config = "127.0.0.1"
        · simp [h, h1, h2]
        · simp [h, h1, h2]

end Rhizo
